import Mathlib

/-!
Verification of the lrcup repository (LRC lyrics codec, offset transform,
tag-container lyrics access, proof-of-work acceptance test) against its
natural-language specification.

The definitions below are a shallow embedding of the Python source:

* `src/lrcup/audio/__init__.py` — `AudioFile.parse_lyrics`,
  `AudioFile.dump_lyrics`, `AudioFile.get_lyrics`, `AudioFile.set_lyrics`,
  `format_lyrics`, and the regular expression `SYNCED_EXPR`;
* `src/lrcup/__main__.py` — `process_lyrics` and the `offset` command's
  delta computation and timestamp shift;
* `src/lrcup/controller.py` — `verify_nonce`;
* `src/lrcup/challenge.py` — the byte comparison of `is_nonce_valid`.

Python strings are modelled as `List Char`; machine integers as `Nat`/`Int`;
Python `float` arithmetic is modelled exactly (over `ℚ` or by the integer it
provably rounds to at the magnitudes the code reaches — every place where the
source computes with floats is annotated with the argument); code that can
raise an exception returns `Option`, `none` being the uncaught exception.
-/

namespace Lrcup

/-! ## Python string primitives -/

/-- The ASCII whitespace characters recognised by Python's `str.strip` /
`str.lstrip` (the source never feeds non-ASCII whitespace to them). -/
def pyIsSpace (c : Char) : Bool :=
  c = ' ' || c = '\t' || c = '\n' || c = '\r' || c = '\x0b' || c = '\x0c'

/-- Python `s.strip()`: remove leading and trailing whitespace. -/
def pyStrip (s : List Char) : List Char :=
  ((s.dropWhile pyIsSpace).reverse.dropWhile pyIsSpace).reverse

/-- Python `s.lstrip()`: remove leading whitespace. -/
def pyLstrip (s : List Char) : List Char :=
  s.dropWhile pyIsSpace

/-- Python `str(n)` for an integer: decimal digits, `-`-prefixed when
negative. -/
def pyStr (n : ℤ) : List Char :=
  if n < 0 then '-' :: Nat.toDigits 10 n.natAbs else Nat.toDigits 10 n.natAbs

/-- Python `s.zfill(w)`: left-pad with `'0'` to width `w`, keeping a leading
sign character in front of the padding. -/
def pyZfill (s : List Char) (w : ℕ) : List Char :=
  if w ≤ s.length then s
  else
    match s with
    | [] => List.replicate w '0'
    | c :: rest =>
      if c = '-' ∨ c = '+' then c :: (List.replicate (w - s.length) '0' ++ rest)
      else List.replicate (w - s.length) '0' ++ s

/-- Python `s.rstrip("0")`: remove trailing `'0'` characters. -/
def pyRstripZeros (s : List Char) : List Char :=
  (s.reverse.dropWhile (fun c => c = '0')).reverse

/-- Python `s.ljust(w, "0")`: right-pad with `'0'` to width `w`. -/
def pyLjustZeros (s : List Char) (w : ℕ) : List Char :=
  s ++ List.replicate (w - s.length) '0'

/-- Decimal value of an ASCII digit character. -/
def dv (c : Char) : ℕ := c.toNat - 48

/-! ## The `SYNCED_EXPR` regular expression

`SYNCED_EXPR = re.compile(r"\[(\d{2}:\d{2}.\d{2})\](.*)")`
(`src/lrcup/audio/__init__.py`, line 38).  The pattern is anchored nowhere:
`re.findall` scans for matches anywhere in the text.  Group 1 is the
eight-character timestamp — note the unescaped `.`, which matches any
character except a newline — and group 2 greedily takes the rest of the
line (`.` again stops at a newline). -/

/-- Try to match `SYNCED_EXPR` at the head of `cs`.  On success returns
(group 1, group 2, text after the match).  The pattern is deterministic:
every position of the match is forced, so no backtracking exists.  `\d` is
modelled as ASCII digits (the source never meets non-ASCII digits). -/
def matchSyncedAt : List Char → Option (List Char × List Char × List Char)
  | '[' :: m1 :: m2 :: ':' :: s1 :: s2 :: sep :: f1 :: f2 :: ']' :: rest =>
    if m1.isDigit && m2.isDigit && s1.isDigit && s2.isDigit &&
        !(sep = '\n') && f1.isDigit && f2.isDigit then
      some ([m1, m2, ':', s1, s2, sep, f1, f2],
            rest.takeWhile (fun c => c != '\n'),
            rest.dropWhile (fun c => c != '\n'))
    else none
  | _ => none

/-- First match of `SYNCED_EXPR` in a line, as `(group 1, group 2)`:
`re.findall(SYNCED_EXPR, line)[0]` succeeds exactly when this is `some`. -/
def findFirstMatch : List Char → Option (List Char × List Char)
  | [] => none
  | c :: rest =>
    match matchSyncedAt (c :: rest) with
    | some (time, g2, _) => some (time, g2)
    | none => findFirstMatch rest

/-- All matches of `SYNCED_EXPR` in a text, scanning left to right and
resuming after each match, as `re.findall` does.  The fuel argument is the
remaining text length; scanning always consumes at least one character per
step, so the fuel never runs out. -/
def findAllCore : ℕ → List Char → List (List Char × List Char)
  | 0, _ => []
  | _ + 1, [] => []
  | fuel + 1, c :: rest =>
    match matchSyncedAt (c :: rest) with
    | some (time, g2, after) => (time, g2) :: findAllCore fuel after
    | none => findAllCore fuel rest

/-- `re.findall(SYNCED_EXPR, s)`. -/
def findAll (s : List Char) : List (List Char × List Char) :=
  findAllCore s.length s

/-! ## The LRC codec (`AudioFile.parse_lyrics` / `AudioFile.dump_lyrics`) -/

/-- Millisecond value of a matched timestamp group
(`int((60000 * int(time[:2])) + (1000 * float(time[3:])))`,
`src/lrcup/audio/__init__.py` line 65).  The group always has the shape
`[m1, m2, ':', s1, s2, sep, f1, f2]`; `time[:2]` is `[m1, m2]` and
`time[3:]` is `[s1, s2, sep, f1, f2]`.

`float(time[3:])` succeeds when `sep` is `'.'` (value `10*s1+s2 +
(10*f1+f2)/100`), when `sep` is a digit (a five-digit integer), or when
`sep` is `'_'` (a digit-group separator, giving a four-digit integer); any
other separator raises `ValueError`, an uncaught exception.  In the three
successful shapes the mathematical value of the whole expression is an
integer below `10^8`; IEEE-754 double rounding of the string and of the
two products is strictly smaller than half the spacing of doubles at that
magnitude, so `int(...)` returns exactly that integer, which is what this
function computes.  (`float` also accepts exponent forms such as `12e34`;
there `int(...)` genuinely depends on double rounding.  That shape is
modelled as `none`; no statement below reaches it.) -/
def timeMillis : List Char → Option ℤ
  | [m1, m2, _, s1, s2, sep, f1, f2] =>
    let mm : ℕ := 10 * dv m1 + dv m2
    if sep = '.' then
      some ((60000 * mm + 1000 * (10 * dv s1 + dv s2) + 10 * (10 * dv f1 + dv f2) : ℕ) : ℤ)
    else if sep.isDigit then
      some ((60000 * mm +
        1000 * (10000 * dv s1 + 1000 * dv s2 + 100 * dv sep + 10 * dv f1 + dv f2) : ℕ) : ℤ)
    else if sep = '_' then
      some ((60000 * mm +
        1000 * (1000 * dv s1 + 100 * dv s2 + 10 * dv f1 + dv f2) : ℕ) : ℤ)
    else none
  | _ => none

/-- The loop body of `AudioFile.parse_lyrics` (lines 58-67), over the list
of lines.  A blank line is skipped; otherwise
`re.findall(SYNCED_EXPR, line)[0]` raises `IndexError` when the line has no
match (`none` here), the timestamp is converted by `timeMillis`, and
`(text.strip(), millis)` is appended. -/
def parseLines : List (List Char) → Option (List (List Char × ℤ))
  | [] => some []
  | line :: rest =>
    if pyStrip line = [] then parseLines rest
    else
      match findFirstMatch line with
      | none => none
      | some (time, text) =>
        match timeMillis time with
        | none => none
        | some t => (parseLines rest).map (fun tail => (pyStrip text, t) :: tail)

/-- `AudioFile.parse_lyrics(lyrics)`: split on `"\n"` and run the loop.
`none` is an uncaught exception (`IndexError` or `ValueError`). -/
def parse_lyrics (lyrics : List Char) : Option (List (List Char × ℤ)) :=
  parseLines (lyrics.splitOn '\n')

/-- One line of `AudioFile.dump_lyrics` (lines 72-76):
`minutes = math.floor(time / 60000)`, `seconds = math.floor((time / 1000) -
(minutes * 60))`, `millisc = time - minutes*60000 - seconds*1000`, rendered
as `[MM:SS.F] text` where `MM`, `SS` are `str(...).zfill(2)` and `F` is
`str(millisc).rstrip("0").ljust(2, "0")`.

The source divides in `float`; for `|time| < 2^40` the double quotient of
`time` by `60000` (or `1000`) differs from the exact quotient by less than
the gap to the nearest integer, so `math.floor` of it equals the exact
floor, i.e. `Int.fdiv`, and
`math.floor(time/1000 - minutes*60) = Int.fdiv time 1000 - minutes*60`
because subtracting the integer `minutes*60` (exact in double at these
magnitudes) commutes with the floor. -/
def dumpLine (text : List Char) (time : ℤ) : List Char :=
  let minutes := Int.fdiv time 60000
  let seconds := Int.fdiv time 1000 - minutes * 60
  let millisc := time - minutes * 60000 - seconds * 1000
  '[' :: (pyZfill (pyStr minutes) 2 ++
    ':' :: (pyZfill (pyStr seconds) 2 ++
      '.' :: (pyLjustZeros (pyRstripZeros (pyStr millisc)) 2 ++
        ']' :: ' ' :: text)))

/-- `AudioFile.dump_lyrics(lyrics)` (lines 70-78): render each
`(text, time)` pair and join with `"\n"`. -/
def dump_lyrics (lines : List (List Char × ℤ)) : List Char :=
  List.intercalate ['\n'] (lines.map (fun p => dumpLine p.1 p.2))

/-! ## `format_lyrics` and `process_lyrics` -/

/-- `format_lyrics(lyrics)` (`src/lrcup/audio/__init__.py` lines 148-151):
re-render every `SYNCED_EXPR` match in the whole text as `[time] group2`
and join with `"\n"`. -/
def format_lyrics (lyrics : List Char) : List Char :=
  List.intercalate ['\n']
    ((findAll lyrics).map (fun p => '[' :: (p.1 ++ ']' :: ' ' :: p.2)))

/-- The comprehension `[line.split("]")[1].lstrip() for line in ...]` of
`process_lyrics` (`src/lrcup/__main__.py` lines 42-47), over the non-blank
lines.  `split("]")[1]` raises `IndexError` (`none`) when a line contains
no `"]"`. -/
def plainParts : List (List Char) → Option (List (List Char))
  | [] => some []
  | line :: rest =>
    match (line.splitOn ']')[1]? with
    | none => none
    | some p => (plainParts rest).map (fun tail => pyLstrip p :: tail)

/-- `process_lyrics(lyrics)` (`src/lrcup/__main__.py` lines 40-50).  If
every non-blank line starts with `"["`, the result is the pair (text after
the first `"]"` of each non-blank line joined by newlines,
`format_lyrics(lyrics)`); otherwise the pair (original text, `None`).
`none` is an uncaught `IndexError`. -/
def process_lyrics (lyrics : List Char) : Option (List Char × Option (List Char)) :=
  let nonblank := (lyrics.splitOn '\n').filter (fun l => !(pyStrip l).isEmpty)
  if nonblank.all (fun l => decide (l.head? = some '[')) then
    (plainParts nonblank).map
      (fun ps => (List.intercalate ['\n'] ps, some (format_lyrics lyrics)))
  else
    some (lyrics, none)

/-! ## The `offset` command (`src/lrcup/__main__.py` lines 276-328) -/

/-- Python `int(q)` on the exact value `q` of a float: truncation toward
zero. -/
def pyInt (q : ℚ) : ℤ := Int.tdiv q.num q.den

/-- The delta computation of the `offset` command
(`src/lrcup/__main__.py` line 315):
`(offset_parts["minutes"] * 60000) + (offset_parts["seconds"] * 1000) *
(1 if offset_direction == "+" else -1)`.
`offset_direction` was validated earlier to be `'+'` or `'-'`; the parts
are the floats parsed from the `...m...s` request, modelled exactly as
rationals. -/
def offset_int (offset_direction : Char) (minutes seconds : ℚ) : ℚ :=
  (minutes * 60000) + (seconds * 1000) * (if offset_direction = '+' then 1 else -1)

/-- The timestamp shift of the `offset` command
(`src/lrcup/__main__.py` lines 309-319), on a parsed document (a list of
`(text, millis)` pairs) and the computed delta:
`lyrics[0][0]` raises `IndexError` on an empty document (`none`); if
`lyrics[0][0] + offset_int < 0` the command stops with the out-of-range
error before touching the document (`none`); otherwise every line becomes
`(lyric, int(time + offset_int))`. -/
def offset_transform (lines : List (List Char × ℤ)) (delta : ℚ) :
    Option (List (List Char × ℤ)) :=
  match lines with
  | [] => none
  | (_, t0) :: _ =>
    if (t0 : ℚ) + delta < 0 then none
    else some (lines.map (fun p => (p.1, pyInt ((p.2 : ℚ) + delta))))

/-! ## The proof-of-work acceptance tests -/

/-- A byte string read as an unsigned big-endian integer. -/
def beNat (bs : List ℕ) : ℕ := bs.foldl (fun a b => 256 * a + b) 0

/-- The comparison loop of `verify_nonce`
(`src/lrcup/controller.py` lines 110-117): iterate `i` over
`range(result_len - 1)`; return `False` on `result[i] > target[i]`, stop
with `True` on `result[i] < target[i]`, and fall through to `True` when
the inspected bytes are all equal.  The first argument is the number of
loop iterations remaining. -/
def vnLoop : ℕ → List ℕ → List ℕ → Bool
  | 0, _, _ => true
  | _ + 1, [], _ => true
  | _ + 1, _, [] => true
  | k + 1, r :: rs, t :: ts =>
    if r > t then false
    else if r < t then true
    else vnLoop k rs ts

/-- `verify_nonce(result, target)` (`src/lrcup/controller.py` lines
105-117): reject on unequal lengths, then run the loop over
`range(len(result) - 1)` iterations. -/
def verify_nonce (result target : List ℕ) : Bool :=
  if result.length = target.length then vnLoop (result.length - 1) result target
  else false

/-- The acceptance comparison of `is_nonce_valid`
(`src/lrcup/challenge.py` line 18): Python's `hash_value < target` on
`bytes`, which is strict lexicographic order (a strict prefix is
smaller). -/
def pyBytesLt : List ℕ → List ℕ → Bool
  | [], [] => false
  | [], _ :: _ => true
  | _ :: _, [] => false
  | r :: rs, t :: ts =>
    if r < t then true
    else if r > t then false
    else pyBytesLt rs ts

/-! ## Tag-container lyrics access (`AudioFile.get_lyrics` / `AudioFile.set_lyrics`) -/

/-- An ID3 lyrics frame: `USLT` (unsynced free text) or `SYLT` (synced,
natively a list of `(text, millis)` pairs). -/
inductive Id3Frame
  | uslt (text : List Char)
  | sylt (lines : List (List Char × ℤ))
deriving DecidableEq

/-- Key lookup in the ID3 tag store (`tag in self.file` / `self.file[tag]`
inside `get_tag` with `as_string=False`; lyrics keys such as
`USLT::eng` are not in `TAG_MAPPING`, so the translation step leaves them
unchanged, and an MP3 frame value is returned as the frame object). -/
def lookupTag : List (List Char × Id3Frame) → List Char → Option Id3Frame
  | [], _ => none
  | (k, f) :: rest, key => if k = key then some f else lookupTag rest key

/-- `AudioFile.get_lyrics(language)` for an MP3 file with `language`
given (`src/lrcup/audio/__init__.py` lines 108-125):
`lyrics = self.get_tag(f"USLT::{language}", False) or
self.get_tag(f"SYLT::{language}", False)` — frame objects are truthy, so
`or` takes the first lookup that found a frame — then a `SYLT` frame is
replaced by `dump_lyrics` of its pair list, and the final
`str(lyrics) if lyrics else None` returns the `USLT` text, or the dumped
text when it is non-empty, or `None`. -/
def get_lyrics (store : List (List Char × Id3Frame)) (language : List Char) :
    Option (List Char) :=
  let lyrics :=
    match lookupTag store ("USLT::".toList ++ language) with
    | some f => some f
    | none => lookupTag store ("SYLT::".toList ++ language)
  match lyrics with
  | none => none
  | some (Id3Frame.uslt t) => some t
  | some (Id3Frame.sylt ls) =>
    if (dump_lyrics ls).isEmpty then none else some (dump_lyrics ls)

/-- A `set_lyrics` payload: the source's `lyrics: str | list`. -/
inductive LyricsPayload
  | str (s : List Char)
  | list (ls : List (List Char × ℤ))
deriving DecidableEq

/-- The FLAC branch of `AudioFile.set_lyrics`
(`src/lrcup/audio/__init__.py` lines 128-132): a list payload raises
`ValueError` (`none`); a string payload is handed to
`set_tag("LYRICS", lyrics)` — the returned pair is the key and value
written. -/
def set_lyrics_flac (lyrics : LyricsPayload) : Option (List Char × LyricsPayload) :=
  match lyrics with
  | LyricsPayload.list _ => none
  | LyricsPayload.str s => some ("LYRICS".toList, LyricsPayload.str s)

/-- The MP4 branch of `AudioFile.set_lyrics`
(`src/lrcup/audio/__init__.py` lines 134-135): no payload check at all —
whatever was passed goes to `set_tag("\xa9lyr", lyrics)`. -/
def set_lyrics_mp4 (lyrics : LyricsPayload) : Option (List Char × LyricsPayload) :=
  some ("\xa9lyr".toList, lyrics)

/-- The ID3 store used to settle the lyrics-priority claim: one unsynced
and one synced frame, both for language `eng`. -/
def store0 : List (List Char × Id3Frame) :=
  [("USLT::eng".toList, Id3Frame.uslt "plain text".toList),
   ("SYLT::eng".toList, Id3Frame.sylt [("Hi".toList, 1000)])]

/-! # Helper lemmas -/

/-- Unfolding lemma for `offset_transform` on a non-empty document. -/
theorem offset_transform_cons (s : List Char) (t : ℤ)
    (rest : List (List Char × ℤ)) (delta : ℚ) :
    offset_transform ((s, t) :: rest) delta =
      if (t : ℚ) + delta < 0 then none
      else some (((s, t) :: rest).map (fun p => (p.1, pyInt ((p.2 : ℚ) + delta)))) :=
  rfl

/-- `int()` of an exact integer value is that integer. -/
theorem pyInt_intCast (n : ℤ) : pyInt (n : ℚ) = n := by
  simp [pyInt]

/-- `int(t + d)` for integers `t`, `d` added exactly in `ℚ`. -/
theorem pyInt_add_intCast (t d : ℤ) : pyInt ((t : ℚ) + (d : ℚ)) = t + d := by
  have h : ((t : ℚ) + (d : ℚ)) = ((t + d : ℤ) : ℚ) := by push_cast; ring
  rw [h, pyInt_intCast]

/-- On a non-negative value, `int()` truncation agrees with the floor. -/
theorem pyInt_eq_floor (q : ℚ) (h : 0 ≤ q) : pyInt q = ⌊q⌋ := by
  rw [Rat.floor_def]
  exact Int.tdiv_eq_ediv (Rat.num_nonneg.mpr h) (Int.natCast_nonneg q.den)

/-- Shifting every timestamp by `+d` and then by `-d` is the identity on
the line list. -/
theorem map_offset_cancel (d : ℤ) (l : List (List Char × ℤ)) :
    (l.map (fun p => (p.1, p.2 + d))).map
      (fun p => (p.1, pyInt ((p.2 : ℚ) + (-(d : ℚ))))) = l := by
  induction l with
  | nil => rfl
  | cons hd tl ih =>
    obtain ⟨a, b⟩ := hd
    have h2 : pyInt (((b + d : ℤ) : ℚ) + (-(d : ℚ))) = b := by
      have he : ((b + d : ℤ) : ℚ) + (-(d : ℚ)) = ((b : ℤ) : ℚ) := by push_cast; ring
      rw [he, pyInt_intCast]
    simp only [List.map_cons, ih, h2]

/-- A line list that meets a line with no `SYNCED_EXPR` match makes the
parse loop raise. -/
theorem parseLines_none_of_bad (l : List Char) :
    ∀ ls : List (List Char), l ∈ ls → pyStrip l ≠ [] → findFirstMatch l = none →
      parseLines ls = none := by
  intro ls
  induction ls with
  | nil => intro hmem _ _; simp at hmem
  | cons hd tl ih =>
    intro hmem hnb hnm
    rcases List.mem_cons.mp hmem with rfl | hmem'
    · simp [parseLines, hnb, hnm]
    · by_cases hhd : pyStrip hd = []
      · simpa [parseLines, hhd] using ih hmem' hnb hnm
      · cases hfm : findFirstMatch hd with
        | none => simp [parseLines, hhd, hfm]
        | some pr =>
          obtain ⟨time, text⟩ := pr
          cases htm : timeMillis time with
          | none => simp [parseLines, hhd, hfm, htm]
          | some t => simp [parseLines, hhd, hfm, htm, ih hmem' hnb hnm]

/-! # Theorems -/

/-! ## C9: concrete parse/dump round trip -/

/-- C9: parsing `"[00:01.50] Hello\n[00:03.00] World"` yields exactly the
lines `(Hello, 1500 ms)` and `(World, 3000 ms)`, and dumping those lines
reproduces the input byte for byte. -/
theorem parse_dump_roundtrip_example :
    parse_lyrics "[00:01.50] Hello\n[00:03.00] World".toList =
      some [("Hello".toList, 1500), ("World".toList, 3000)] ∧
    dump_lyrics [("Hello".toList, 1500), ("World".toList, 3000)] =
      "[00:01.50] Hello\n[00:03.00] World".toList := by
  constructor
  · decide
  · decide

/-! ## C1: the sign of an offset request -/

/-- C1: the delta computed for the request `-1m30s` (direction `'-'`,
minutes `1`, seconds `30`) is `+30000` ms, not the `-90000` ms that
`sign * (minutes*60000 + seconds*1000)` prescribes: the sign factor
multiplies only the seconds term. -/
theorem offset_delta_sign_bug :
    offset_int '-' 1 30 = 30000 ∧ offset_int '-' 1 30 ≠ -90000 := by
  have hne : ¬ ('-' : Char) = '+' := by decide
  constructor
  · simp only [offset_int, if_neg hne]; norm_num
  · simp only [offset_int, if_neg hne]; norm_num

/-! ## C2: the proof-of-work acceptance tests -/

/-- C2: on the 32-byte target `0^31 ++ [3]`, `verify_nonce` accepts the
digest equal to the target and also the digest `0^31 ++ [5]` whose
big-endian value 5 exceeds the target value 3 (the loop never reads the
last byte and falls through to `True` on equality), while the strict
byte comparison used by `is_nonce_valid` rejects both. -/
theorem verify_nonce_comparison_bug :
    verify_nonce (List.replicate 31 0 ++ [3]) (List.replicate 31 0 ++ [3]) = true ∧
    verify_nonce (List.replicate 31 0 ++ [5]) (List.replicate 31 0 ++ [3]) = true ∧
    ¬ beNat (List.replicate 31 0 ++ [3]) < beNat (List.replicate 31 0 ++ [3]) ∧
    ¬ beNat (List.replicate 31 0 ++ [5]) < beNat (List.replicate 31 0 ++ [3]) ∧
    pyBytesLt (List.replicate 31 0 ++ [3]) (List.replicate 31 0 ++ [3]) = false ∧
    pyBytesLt (List.replicate 31 0 ++ [5]) (List.replicate 31 0 ++ [3]) = false := by
  refine ⟨by decide, by decide, by decide, by decide, by decide, by decide⟩

/-! ## C3: the 10 ms-aligned round trip -/

/-- C3: the document with the single line `(Hi, 10 ms)` — a non-negative
multiple of 10 ms — dumps to `"[00:00.10] Hi"`, which parses back to
100 ms, not 10 ms: `str(10).rstrip("0").ljust(2, "0")` renders the
hundredths field as `"10"`. -/
theorem dump_ten_ms_roundtrip_bug :
    dump_lyrics [("Hi".toList, 10)] = "[00:00.10] Hi".toList ∧
    parse_lyrics (dump_lyrics [("Hi".toList, 10)]) = some [("Hi".toList, 100)] ∧
    parse_lyrics (dump_lyrics [("Hi".toList, 10)]) ≠ some [("Hi".toList, 10)] := by
  refine ⟨by decide, by decide, by decide⟩

/-! ## C4: lyrics-frame priority in `get_lyrics` -/

/-- C4 counterexample: on a store holding both `USLT::eng` (unsynced,
text `plain text`) and `SYLT::eng` (synced, one line `(Hi, 1000 ms)`),
`get_lyrics` with language `eng` returns the unsynced text, not the
dumped synced frame. -/
theorem get_lyrics_synced_first_cex :
    get_lyrics store0 "eng".toList = some "plain text".toList ∧
    get_lyrics store0 "eng".toList ≠ some (dump_lyrics [("Hi".toList, 1000)]) := by
  refine ⟨by decide, by decide⟩

/-- C4 amended: whenever the `USLT::<language>` lookup finds an unsynced
frame, `get_lyrics` returns that frame's text — the synced frame is only
a fallback, consulted when the unsynced lookup fails. -/
theorem get_lyrics_unsynced_wins (store : List (List Char × Id3Frame))
    (language t : List Char)
    (h : lookupTag store ("USLT::".toList ++ language) = some (Id3Frame.uslt t)) :
    get_lyrics store language = some t := by
  unfold get_lyrics
  rw [h]

/-- C4 witness: the amended statement at the two-frame store. -/
theorem get_lyrics_unsynced_wins_witness :
    lookupTag store0 ("USLT::".toList ++ "eng".toList) =
      some (Id3Frame.uslt "plain text".toList) ∧
    get_lyrics store0 "eng".toList = some "plain text".toList :=
  ⟨by decide, get_lyrics_unsynced_wins store0 "eng".toList "plain text".toList (by decide)⟩

/-! ## C5: list payloads to the flat-field containers -/

/-- C5 counterexample: the MP4 branch of `set_lyrics` accepts a list
payload and writes it through to the `\xa9lyr` field instead of raising. -/
theorem set_lyrics_mp4_list_not_error :
    set_lyrics_mp4 (LyricsPayload.list [("Hi".toList, 1000)]) =
      some ("\xa9lyr".toList, LyricsPayload.list [("Hi".toList, 1000)]) ∧
    set_lyrics_mp4 (LyricsPayload.list [("Hi".toList, 1000)]) ≠ none := by
  refine ⟨rfl, by decide⟩

/-- C5 amended: the FLAC branch raises `ValueError` on a list payload and
writes a string payload verbatim to the `LYRICS` field; the MP4 branch
performs no payload check and writes whatever it was given (in
particular a string verbatim) to the `\xa9lyr` field. -/
theorem set_lyrics_flat_fields :
    (∀ ls, set_lyrics_flac (LyricsPayload.list ls) = none) ∧
    (∀ s, set_lyrics_flac (LyricsPayload.str s) =
      some ("LYRICS".toList, LyricsPayload.str s)) ∧
    (∀ p, set_lyrics_mp4 p = some ("\xa9lyr".toList, p)) :=
  ⟨fun _ => rfl, fun _ => rfl, fun _ => rfl⟩

/-! ## C6: synced/plain classification -/

/-- C6 counterexample: in `"[abc] hi"` the only non-blank line fails the
`[MM:SS.xx]` grammar, yet `process_lyrics` takes the synced branch (the
check is only `startswith("[")`): it returns the rewritten text `"hi"`
with an empty synced string, not the original text with `None`. -/
theorem process_lyrics_grammar_check_cex :
    process_lyrics "[abc] hi".toList = some ("hi".toList, some []) ∧
    process_lyrics "[abc] hi".toList ≠ some ("[abc] hi".toList, none) := by
  refine ⟨by decide, by decide⟩

/-- C6 amended: if some non-blank line does not start with `"["` — the
only test `process_lyrics` performs — the document is classified as
plain: the original text is returned unmodified with no synced
component. -/
theorem process_lyrics_plain_of_not_bracket (lyrics : List Char)
    (h : ∃ l ∈ lyrics.splitOn '\n', pyStrip l ≠ [] ∧ l.head? ≠ some '[') :
    process_lyrics lyrics = some (lyrics, none) := by
  obtain ⟨l, hmem, hnb, hnh⟩ := h
  have hfil : l ∈ (lyrics.splitOn '\n').filter (fun s => !(pyStrip s).isEmpty) := by
    refine List.mem_filter.mpr ⟨hmem, ?_⟩
    simpa using hnb
  have hall : ((lyrics.splitOn '\n').filter (fun s => !(pyStrip s).isEmpty)).all
      (fun s => decide (s.head? = some '[')) = false := by
    by_cases hb : ((lyrics.splitOn '\n').filter (fun s => !(pyStrip s).isEmpty)).all
        (fun s => decide (s.head? = some '[')) = true
    · exact absurd (by simpa using List.all_eq_true.mp hb l hfil) hnh
    · revert hb
      cases ((lyrics.splitOn '\n').filter (fun s => !(pyStrip s).isEmpty)).all
          (fun s => decide (s.head? = some '[')) <;> simp
  simp [process_lyrics, hall]

/-- C6 witness: the amended statement on `"hello\n[00:01.00] Hi"`, whose
first line does not start with `"["`. -/
theorem process_lyrics_plain_of_not_bracket_witness :
    (∃ l ∈ ("hello\n[00:01.00] Hi".toList).splitOn '\n',
        pyStrip l ≠ [] ∧ l.head? ≠ some '[') ∧
    process_lyrics "hello\n[00:01.00] Hi".toList =
      some ("hello\n[00:01.00] Hi".toList, none) := by
  have hx : ∃ l ∈ ("hello\n[00:01.00] Hi".toList).splitOn '\n',
      pyStrip l ≠ [] ∧ l.head? ≠ some '[' :=
    ⟨"hello".toList, by decide, by decide, by decide⟩
  exact ⟨hx, process_lyrics_plain_of_not_bracket _ hx⟩

/-! ## C7: the offset transform is invertible -/

/-- C7 counterexample: the original claim quantifies over every delta
the program can apply, and the program's delta is a float — the request
`"+0.0005s"` yields half a millisecond.  On the document with one line
at 1000 ms, shifting by `+1/2` ms triggers no rejection and returns the
line at `int(1000.5) = 1000` ms; shifting that result by `-1/2` ms also
triggers no rejection but returns `int(999.5) = 999` ms, not 1000: the
round trip loses a millisecond to `int()` truncation. -/
theorem offset_transform_roundtrip_cex :
    offset_transform [("Hi".toList, 1000)] (1 / 2 : ℚ) =
      some [("Hi".toList, 1000)] ∧
    offset_transform [("Hi".toList, 1000)] (-(1 / 2 : ℚ)) =
      some [("Hi".toList, 999)] ∧
    (999 : ℤ) ≠ 1000 := by
  have e1 : pyInt (((1000 : ℤ) : ℚ) + 1 / 2) = 1000 := by
    rw [pyInt_eq_floor _ (by norm_num), Int.floor_eq_iff]
    norm_num
  have e2 : pyInt (((1000 : ℤ) : ℚ) + -(1 / 2)) = 999 := by
    rw [pyInt_eq_floor _ (by norm_num), Int.floor_eq_iff]
    norm_num
  refine ⟨?_, ?_, by decide⟩
  · rw [offset_transform_cons, if_neg (by norm_num)]
    simp only [List.map_cons, List.map_nil, e1]
  · rw [offset_transform_cons, if_neg (by norm_num)]
    simp only [List.map_cons, List.map_nil, e2]

/-- C7 amended: for a document whose leading timestamp is non-negative
(the data model's invariant for `Synced` lines) and an *integer*
millisecond delta `d` — fractional deltas are refuted above — if
shifting by `+d` passes the leading-timestamp check and produces `r`,
then shifting `r` by `-d` succeeds and reproduces the document — texts
and millisecond offsets — exactly. -/
theorem offset_transform_roundtrip
    (s0 : List Char) (t0 : ℤ) (rest : List (List Char × ℤ)) (d : ℤ)
    (r : List (List Char × ℤ))
    (h0 : 0 ≤ t0)
    (h : offset_transform ((s0, t0) :: rest) (d : ℚ) = some r) :
    offset_transform r (-(d : ℚ)) = some ((s0, t0) :: rest) := by
  rw [offset_transform_cons] at h
  by_cases hg : (t0 : ℚ) + (d : ℚ) < 0
  · rw [if_pos hg] at h
    cases h
  · rw [if_neg hg] at h
    have hr := Option.some.inj h
    subst hr
    simp only [List.map_cons, pyInt_add_intCast]
    rw [offset_transform_cons]
    have hg2 : ¬ (((t0 + d : ℤ) : ℚ) + (-(d : ℚ)) < 0) := by
      have he : ((t0 + d : ℤ) : ℚ) + (-(d : ℚ)) = (t0 : ℚ) := by push_cast; ring
      rw [he]
      exact not_lt.mpr (by exact_mod_cast h0)
    rw [if_neg hg2]
    have h3 : pyInt (((t0 + d : ℤ) : ℚ) + (-(d : ℚ))) = t0 := by
      have he : ((t0 + d : ℤ) : ℚ) + (-(d : ℚ)) = ((t0 : ℤ) : ℚ) := by push_cast; ring
      rw [he, pyInt_intCast]
    simp only [List.map_cons, h3, map_offset_cancel]

/-- C7 witness: the round trip at the one-line document `(Hello, 1500 ms)`
with delta 500 ms. -/
theorem offset_transform_roundtrip_witness :
    (0 : ℤ) ≤ 1500 ∧
    offset_transform [("Hello".toList, 1500)] ((500 : ℤ) : ℚ) =
      some [("Hello".toList, 2000)] ∧
    offset_transform [("Hello".toList, 2000)] (-((500 : ℤ) : ℚ)) =
      some [("Hello".toList, 1500)] := by
  have hfwd : offset_transform [("Hello".toList, 1500)] ((500 : ℤ) : ℚ) =
      some [("Hello".toList, 2000)] := by
    rw [offset_transform_cons, if_neg (by norm_num)]
    simp only [List.map_cons, List.map_nil, pyInt_add_intCast]
    norm_num
  exact ⟨by norm_num, hfwd,
    offset_transform_roundtrip "Hello".toList 1500 [] 500
      [("Hello".toList, 2000)] (by norm_num) hfwd⟩

/-! ## C8: rejection of a negative leading timestamp -/

/-- C8: whenever the delta would drive the first line's timestamp below
zero — in particular any negative delta against a first line at
`00:00.00` — the transform stops with the out-of-range error before
building the shifted list; being a pure function of its input, it leaves
the document untouched. -/
theorem offset_transform_negative_first_rejected
    (s0 : List Char) (t0 : ℤ) (rest : List (List Char × ℤ)) (delta : ℚ)
    (h : (t0 : ℚ) + delta < 0) :
    offset_transform ((s0, t0) :: rest) delta = none := by
  rw [offset_transform_cons, if_pos h]

/-- C8 witness: delta `-1` ms against a document starting at `00:00.00`. -/
theorem offset_transform_negative_first_rejected_witness :
    ((0 : ℤ) : ℚ) + (-1 : ℚ) < 0 ∧
    offset_transform [("Hello".toList, 0)] (-1 : ℚ) = none :=
  ⟨by norm_num,
   offset_transform_negative_first_rejected "Hello".toList 0 [] (-1 : ℚ) (by norm_num)⟩

/-! ## C10: a non-matching non-blank line crashes the parser -/

/-- C10: any text containing a non-blank line on which `SYNCED_EXPR` has
no match — such as `"[00:01.500] Hi"`, whose fractional field has three
digits — makes `parse_lyrics` raise an uncaught `IndexError`
(`re.findall(...)[0]` on an empty list), modelled as `none`: no value is
returned and there is no fallback to a plain result. -/
theorem parse_lyrics_crash_on_bad_line (lyrics : List Char)
    (h : ∃ line ∈ lyrics.splitOn '\n', pyStrip line ≠ [] ∧ findFirstMatch line = none) :
    parse_lyrics lyrics = none := by
  obtain ⟨l, hmem, hnb, hnm⟩ := h
  exact parseLines_none_of_bad l (lyrics.splitOn '\n') hmem hnb hnm

/-- C10 witness: the crash at `"[00:01.500] Hi"`. -/
theorem parse_lyrics_crash_on_bad_line_witness :
    (∃ line ∈ ("[00:01.500] Hi".toList).splitOn '\n',
        pyStrip line ≠ [] ∧ findFirstMatch line = none) ∧
    parse_lyrics "[00:01.500] Hi".toList = none := by
  have hx : ∃ line ∈ ("[00:01.500] Hi".toList).splitOn '\n',
      pyStrip line ≠ [] ∧ findFirstMatch line = none :=
    ⟨"[00:01.500] Hi".toList, by decide, by decide, by decide⟩
  exact ⟨hx, parse_lyrics_crash_on_bad_line _ hx⟩

end Lrcup
